import Mathlib

/-!
Verification of the fetch-orchestrator specification against the servo
excerpt.  The repository ships the fetch test-suite, the document load
tracker and the Bluetooth GATT characteristic binding; the orchestrator,
the CORS preflight cache and the request/response model themselves are not
part of the excerpt, so those are modelled from the specification text and
the claims are settled against that model.  The load tracker and the
Bluetooth binding are embedded directly from their Rust sources.
-/

namespace Servo

/-! ## Request/Response data model (modelled from the spec, §3) -/

/-- A URL, reduced to the parts the fetch model reads: scheme, host (the
scheme/host pair is the URL's origin) and a numeric path (the tests use
counter paths). -/
structure Url where
  scheme : String
  host : String
  path : Nat
deriving DecidableEq, Repr

/-- Modelled from the spec: an origin is opaque or a (scheme, host) tuple. -/
inductive Origin
  | opaqueOrigin (id : Nat)
  | tuple (scheme : String) (host : String)
deriving DecidableEq, Repr

/-- The origin of a URL is its (scheme, host) tuple. -/
def urlOrigin (u : Url) : Origin := .tuple u.scheme u.host

/-- HTTP request methods, with extension methods carrying their name. -/
inductive Method
  | GET
  | HEAD
  | POST
  | OPTIONS
  | EXT (name : String)
deriving DecidableEq, Repr

/-- Modelled from the spec: `mode : {NoCORS, SameOrigin, CORSMode, Navigate}`. -/
inductive RequestMode
  | NoCORS
  | SameOrigin
  | CORSMode
  | Navigate
deriving DecidableEq, Repr

/-- Modelled from the spec: `redirect_mode : {Follow, Error, Manual}`. -/
inductive RedirectMode
  | Follow
  | Error
  | Manual
deriving DecidableEq, Repr

/-- Modelled from the spec: the per-fetch request record (referrer fields,
which no claim reads, are elided). -/
structure Request where
  url : Url
  origin : Origin
  method : Method
  headers : List (String × String)
  mode : RequestMode
  redirect_mode : RedirectMode
  use_cors_preflight : Bool
  local_urls_only : Bool
  credentials : Bool
deriving DecidableEq, Repr

/-- Modelled from the spec: the body's three-state lifecycle. -/
inductive ResponseBody
  | Empty
  | Receiving (bytes : List Nat)
  | Done (bytes : List Nat)
deriving DecidableEq, Repr

/-- `ResponseBody::is_done` (net_traits accessor used by the tests). -/
def ResponseBody.is_done : ResponseBody → Bool
  | .Done _ => true
  | _ => false

/-- `response_type : {Basic, CORS, Default, Opaque, OpaqueRedirect, Error}`. -/
inductive ResponseType
  | Basic
  | CORS
  | Default
  | Opaque
  | OpaqueRedirect
  | Error
deriving DecidableEq, Repr

/-- `cache_state : {None, Local, Validated, Partial}`. -/
inductive CacheState
  | None
  | Local
  | Validated
  | Partial
deriving DecidableEq, Repr

/-- Modelled from the spec: how a preflight response names the origins it
allows (`Access-Control-Allow-Origin`: `*` or one origin). -/
inductive AllowOrigin
  | Any
  | Exact (o : Origin)
deriving DecidableEq, Repr

/-- Modelled from the spec: the unfiltered ("internal") response the
orchestrator obtains from the transport; CORS-relevant response headers are
carried in structured form. -/
structure RawResponse where
  status : Option (Nat × String)
  headers : List (String × String)
  body : ResponseBody
  url : Option Url
  url_list : List Url
  cache_state : CacheState
  allowOrigin : Option AllowOrigin
  exposeHeaders : List String
deriving DecidableEq, Repr

/-- Modelled from the spec: the outcome of a fetch, filtered or raw. -/
structure Response where
  response_type : ResponseType
  status : Option (Nat × String)
  headers : List (String × String)
  body : ResponseBody
  url : Option Url
  url_list : List Url
  cache_state : CacheState
  internal_response : Option RawResponse
deriving DecidableEq, Repr

/-- The uniform terminal failure value ("network error", spec §7). -/
def Response.networkError : Response where
  response_type := .Error
  status := none
  headers := []
  body := .Empty
  url := none
  url_list := []
  cache_state := .None
  internal_response := none

/-- `Response::is_network_error` accessor (spec §4.1). -/
def Response.is_network_error (r : Response) : Bool :=
  decide (r.response_type = .Error)

/-- A response type that forbids a body (spec §3: `Opaque`, `OpaqueRedirect`
and `Error` bodies never leave `Empty`). -/
def typeForbidsBody (t : ResponseType) : Prop :=
  t = .Opaque ∨ t = .OpaqueRedirect ∨ t = .Error

/-- A body that has reached its terminal `Done` state. -/
def bodyDone (b : ResponseBody) : Prop := ∃ bytes, b = .Done bytes

/-- Modelled from the spec: (§3 invariant) a response is "done" iff its own
body is `Done` (or the type forbids a body) and its `internal_response`, if
any, is also done. -/
def Response.is_done (r : Response) : Prop :=
  (bodyDone r.body ∨ typeForbidsBody r.response_type) ∧
    ∀ inner, r.internal_response = some inner → bodyDone inner.body

/-! ## Response-type filtering (modelled from the spec, §4.3) -/

/-- The forbidden response headers `Set-Cookie` / `Set-Cookie2`.  Header
names are case-insensitive on the wire; the model carries them already
normalized to lowercase. -/
def forbiddenResponseHeader (n : String) : Bool :=
  decide (n = "set-cookie") || decide (n = "set-cookie2")

/-- Modelled from the spec: `Basic` filtering passes headers through except
the forbidden response headers, wrapping the internal response. -/
def filterBasic (raw : RawResponse) : Response where
  response_type := .Basic
  status := raw.status
  headers := raw.headers.filter fun h => !forbiddenResponseHeader h.1
  body := raw.body
  url := raw.url
  url_list := raw.url_list
  cache_state := raw.cache_state
  internal_response := some raw

/-- The fixed CORS header allow-list (spec §4.3). -/
def corsAllowList : List String :=
  ["cache-control", "content-language", "content-type", "expires",
   "last-modified", "pragma"]

/-- Whether CORS filtering keeps a header: on the fixed allow-list or named
by `Access-Control-Expose-Headers`, and never a forbidden response header
even if explicitly exposed. -/
def corsHeaderKept (raw : RawResponse) (n : String) : Bool :=
  (corsAllowList.contains n || raw.exposeHeaders.contains n) &&
    !forbiddenResponseHeader n

/-- Modelled from the spec: `CORS` filtering keeps only allow-listed or
explicitly exposed headers, excluding `Set-Cookie`/`Set-Cookie2`. -/
def filterCORS (raw : RawResponse) : Response where
  response_type := .CORS
  status := raw.status
  headers := raw.headers.filter fun h => corsHeaderKept raw h.1
  body := raw.body
  url := raw.url
  url_list := raw.url_list
  cache_state := raw.cache_state
  internal_response := some raw

/-- Modelled from the spec: `Opaque` filtering suppresses headers, status,
`url`/`url_list` to the empty/`None` state and forces the body `Empty`
(spec §3 lists no internal response for `Opaque`). -/
def filterOpaque (_raw : RawResponse) : Response where
  response_type := .Opaque
  status := none
  headers := []
  body := .Empty
  url := none
  url_list := []
  cache_state := .None
  internal_response := none

/-- Modelled from the spec: `OpaqueRedirect` filtering, same suppression as
`Opaque` but wrapping the internal redirect response. -/
def filterOpaqueRedirect (raw : RawResponse) : Response where
  response_type := .OpaqueRedirect
  status := none
  headers := []
  body := .Empty
  url := none
  url_list := []
  cache_state := .None
  internal_response := some raw

/-! ## Transport and the redirect loop (modelled from the spec, §4.3/§6) -/

/-- Modelled from the spec: (§6) one transport exchange — status, headers and
body bytes, plus the CORS-relevant response headers in structured form; the
`Location` header is carried as the already-resolved target URL. -/
structure Wire where
  status : Nat
  reason : String
  headers : List (String × String)
  body : List Nat
  location : Option Url
  allowOrigin : Option AllowOrigin
  allowMethods : Option (List Method)
  allowHeaders : Option (List String)
  maxAge : Option Nat
  exposeHeaders : List String
deriving DecidableEq, Repr

/-- The scheme-transport layer: one `Wire` per `(method, url)` exchange. -/
abbrev Server := Method → Url → Wire

/-- Modelled from the spec: (§4.3) method rewriting on redirect — `303`
always becomes `GET`; `301`/`302` become `GET` only from `POST`; other
(status, method) pairs are preserved. -/
def redirectMethod (status : Nat) (m : Method) : Method :=
  if status = 303 then .GET
  else if (status = 301 ∨ status = 302) ∧ m = .POST then .GET
  else m

/-- Build the unfiltered response for a terminal wire exchange: the body is
complete (`Done`), `url` is the last visited URL, `url_list` the visited
sequence. -/
def rawOf (w : Wire) (u : Url) (acc : List Url) : RawResponse where
  status := some (w.status, w.reason)
  headers := w.headers
  body := .Done w.body
  url := some u
  url_list := acc
  cache_state := .None
  allowOrigin := w.allowOrigin
  exposeHeaders := w.exposeHeaders

/-- Whether a wire exchange is a redirect: a 3xx status carrying a
`Location` target. -/
def isRedirectWire (w : Wire) : Bool :=
  decide (300 ≤ w.status) && decide (w.status < 400) && w.location.isSome

/-- Outcome of the redirect loop: a terminal unfiltered response, a redirect
kept unfollowed under `Manual` mode, or a network error. -/
inductive LoopOut
  | ok (raw : RawResponse)
  | manualRedirect (raw : RawResponse)
  | err
deriving DecidableEq, Repr

/-- The loop outcome together with the trace of requests actually issued
(one `(method, url)` pair per hop, in order). -/
structure LoopResult where
  out : LoopOut
  trace : List (Method × Url)
deriving DecidableEq, Repr

/-- Modelled from the spec: (§4.3) one hop of the redirect loop; `recur`
continues with the rewritten method and resolved target — on a 3xx with a
`Location`, `Follow` appends the resolved target to `url_list` and loops —
unless the redirect count `len(url_list) - 1` would exceed 20, which is a
network error produced without issuing the next request; `Manual` keeps the
redirect unfollowed; `Error` is a network error. -/
def httpStep (server : Server) (mode : RedirectMode)
    (recur : Method → Url → List Url → LoopResult)
    (m : Method) (u : Url) (acc : List Url) : LoopResult :=
  let w := server m u
  if 300 ≤ w.status ∧ w.status < 400 then
    match w.location with
    | some loc =>
      match mode with
      | .Error => ⟨.err, [(m, u)]⟩
      | .Manual => ⟨.manualRedirect (rawOf w u acc), [(m, u)]⟩
      | .Follow =>
        if 21 ≤ acc.length then ⟨.err, [(m, u)]⟩
        else
          let r := recur (redirectMethod w.status m) loc (acc ++ [loc])
          ⟨r.out, (m, u) :: r.trace⟩
    | none => ⟨.ok (rawOf w u acc), [(m, u)]⟩
  else ⟨.ok (rawOf w u acc), [(m, u)]⟩

/-- Modelled from the spec: (§4.3) the redirect loop, fuelled; the
`url_list` ceiling bounds the real recursion, the fuel only makes the model
structurally recursive. -/
def httpLoop (server : Server) (mode : RedirectMode) :
    Nat → Method → Url → List Url → LoopResult
  | 0, _, _, _ => ⟨.err, []⟩
  | fuel + 1, m, u, acc => httpStep server mode (httpLoop server mode fuel) m u acc

/-! ## CORS preflight cache (modelled from the spec, §4.2) -/

/-- The cache key: `(origin, url, credentials-mode)`; the request's method
set is intentionally not part of the key. -/
structure CacheKey where
  origin : Origin
  url : Url
  credentials : Bool
deriving DecidableEq, Repr

/-- One cached preflight authorization: allowed methods, allowed headers
and the wall-clock expiry derived from `Access-Control-Max-Age`. -/
structure CORSCacheEntry where
  key : CacheKey
  methods : List Method
  headerNames : List String
  expiry : Nat
deriving DecidableEq, Repr

/-- Modelled from the spec: the preflight cache, unbounded, expiry-only. -/
abbrev CORSCache := List CORSCacheEntry

/-- The cache key of a request. -/
def keyOf (req : Request) : CacheKey :=
  ⟨req.origin, req.url, req.credentials⟩

/-- An entry is live while the wall clock has not passed its expiry;
an expired entry behaves as absent. -/
def entryLive (now : Nat) (e : CORSCacheEntry) : Bool :=
  decide (now ≤ e.expiry)

/-- Whether some live entry for the key authorizes the method. -/
def matchMethodKey (now : Nat) (cache : CORSCache) (k : CacheKey) (m : Method) : Bool :=
  cache.any fun e => decide (e.key = k) && entryLive now e && e.methods.contains m

/-- `CORSCache::match_method`: does a cached preflight cover `m` for the
request's `(origin, url, credentials)` key? -/
def match_method (now : Nat) (cache : CORSCache) (req : Request) (m : Method) : Bool :=
  matchMethodKey now cache (keyOf req) m

/-- `CORSCache::insert`: add/refresh an authorization for the key. -/
def insertEntry (now : Nat) (cache : CORSCache) (k : CacheKey)
    (ms : List Method) (hs : List String) (maxAge : Nat) : CORSCache :=
  ⟨k, ms, hs, now + maxAge⟩ :: cache

/-! ## The fetch orchestrator (modelled from the spec, §4.3) -/

/-- Local schemes resolved without network logic. -/
def schemeIsLocal (u : Url) : Bool :=
  u.scheme = "about" || u.scheme = "data" || u.scheme = "file"

/-- A "simple" method needs no preflight by itself. -/
def isSimpleMethod : Method → Bool
  | .GET | .HEAD | .POST => true
  | _ => false

/-- Whether an `Access-Control-Allow-Origin` answer admits the origin. -/
def allowOriginMatches : Option AllowOrigin → Origin → Bool
  | some .Any, _ => true
  | some (.Exact o), o2 => decide (o = o2)
  | none, _ => false

/-- Modelled from the spec: a preflight authorizes the real request when it
is 200-class, its `Access-Control-Allow-Origin` matches (or is `*`) and the
requested method is allowed. -/
def preflightOk (pw : Wire) (req : Request) : Bool :=
  decide (200 ≤ pw.status) && decide (pw.status ≤ 299) &&
    allowOriginMatches pw.allowOrigin req.origin &&
    (pw.allowMethods.getD []).contains req.method

/-- Modelled from the spec: the CORS check on the terminal response. -/
def corsCheckOk (raw : RawResponse) (req : Request) : Bool :=
  allowOriginMatches raw.allowOrigin req.origin

/-- Fuel for the redirect loop; anything above the 20-redirect ceiling
plus one hop is equivalent. -/
def fetchFuel : Nat := 25

/-- Run the redirect loop for a request, starting from its URL with the
one-element visited list. -/
def runMainLoop (server : Server) (req : Request) : LoopResult :=
  httpLoop server req.redirect_mode fetchFuel req.method req.url [req.url]

/-- Modelled from the spec: (§4.3) classify and filter the terminal loop
outcome — same-origin results are `Basic`; cross-origin `CORSMode` results
pass the CORS check and are `CORS` filtered (else network error);
cross-origin results without CORS mode are `Opaque`; unfollowed redirects
are `OpaqueRedirect`; loop failures are network errors. -/
def classifyAndFilter (req : Request) (lr : LoopResult) : Response :=
  match lr.out with
  | .err => Response.networkError
  | .manualRedirect raw => filterOpaqueRedirect raw
  | .ok raw =>
    if req.origin = urlOrigin req.url then filterBasic raw
    else if req.mode = .CORSMode then
      if corsCheckOk raw req then filterCORS raw else Response.networkError
    else filterOpaque raw

/-- The observable outcome of one orchestrator invocation: the response,
the updated CORS cache, the number of preflight `OPTIONS` requests issued
and the trace of main-loop requests issued. -/
structure FetchOut where
  response : Response
  cache : CORSCache
  optionsCount : Nat
  trace : List (Method × Url)

/-- Modelled from the spec: (§4.2) a successful preflight is cached when
`Access-Control-Max-Age` is present, storing the allowed methods/headers. -/
def preflightCacheUpdate (now : Nat) (cache : CORSCache) (req : Request)
    (pw : Wire) : CORSCache :=
  match pw.maxAge with
  | some age =>
    insertEntry now cache (keyOf req) (pw.allowMethods.getD [])
      (pw.allowHeaders.getD []) age
  | none => cache

/-- Modelled from the spec: (§4.3) the missing fetch orchestrator
(`net::fetch::methods::fetch_with_cors_cache`).  Non-local URLs fail under
`local_urls_only`; a cross-origin `CORSMode` request consults the preflight
cache and issues an `OPTIONS` preflight when uncovered, caching the
authorization under `Access-Control-Max-Age`; then the redirect loop runs
and the terminal outcome is classified and filtered. -/
def fetch_with_cors_cache (server : Server) (now : Nat) (cache : CORSCache)
    (req : Request) : FetchOut :=
  if req.local_urls_only && !schemeIsLocal req.url then
    ⟨Response.networkError, cache, 0, []⟩
  else if req.mode = .CORSMode ∧ req.origin ≠ urlOrigin req.url then
    if (req.use_cors_preflight || !isSimpleMethod req.method) &&
        !match_method now cache req req.method then
      if preflightOk (server .OPTIONS req.url) req then
        ⟨classifyAndFilter req (runMainLoop server req),
         preflightCacheUpdate now cache req (server .OPTIONS req.url), 1,
         (runMainLoop server req).trace⟩
      else ⟨Response.networkError, cache, 1, []⟩
    else
      ⟨classifyAndFilter req (runMainLoop server req), cache, 0,
       (runMainLoop server req).trace⟩
  else
    ⟨classifyAndFilter req (runMainLoop server req), cache, 0,
     (runMainLoop server req).trace⟩

/-! ## Delivery-target protocol (modelled from the spec, §4.4) -/

/-- The delivery-target calls observable for a completed fetch. -/
inductive FetchEvent
  | response (r : Response)
  | chunk (bytes : List Nat)
  | eof (r : Response)
deriving DecidableEq, Repr

/-- Modelled from the spec: (§4.4) the ordered delivery-target calls for a
completed fetch — `process_response` once, the body chunks in order, then
exactly one `process_response_eof` with the finished response. -/
def deliverEvents (r : Response) : List FetchEvent :=
  .response r ::
    ((match r.body with
      | .Done bs => [.chunk bs]
      | _ => []) ++ [.eof r])

/-- The response observed at the final `process_response_eof` call. -/
def lastEofResponse (evs : List FetchEvent) : Option Response :=
  evs.foldl (fun acc e => match e with | .eof r => some r | _ => acc) none

/-- Modelled from the spec: asynchronous fetch as observed through the
delivery-target protocol — the response carried by `process_response_eof`. -/
def fetch_async (server : Server) (now : Nat) (cache : CORSCache)
    (req : Request) : Option Response :=
  lastEofResponse (deliverEvents (fetch_with_cors_cache server now cache req).response)

/-- Modelled from the spec: (§4.4) the synchronous wrapper is the same
algorithm, merely blocked on until completion. -/
def fetch_sync (server : Server) (now : Nat) (cache : CORSCache)
    (req : Request) : Response :=
  (fetch_with_cors_cache server now cache req).response

/-! ## `response_is_done` (embedded from `tests/unit/net/fetch.rs`) -/

/-- The test-suite's completion check: the own body must be `Done` unless
the response type cannot have a body, and the internal response's body, if
present, must also be `Done`. -/
def response_is_done (response : Response) : Bool :=
  let response_complete :=
    match response.response_type with
    | .Default | .Basic | .CORS => response.body.is_done
    | .Opaque | .OpaqueRedirect | .Error => true
  let internal_complete :=
    match response.internal_response with
    | some res => res.body.is_done
    | none => true
  response_complete && internal_complete

/-! ## Document load tracking (embedded from `script/document_loader.rs`) -/

/-- `LoadType`: a pending load identified by kind and URL. -/
inductive LoadType
  | Image (url : Url)
  | Script (url : Url)
  | Subframe (url : Url)
  | Stylesheet (url : Url)
  | PageSource (url : Url)
  | Media (url : Url)
deriving DecidableEq, Repr

/-- The `DocumentLoader` state the claims read: the ordered list of
blocking loads (resource threads and pipeline id carry no semantics here). -/
structure DocumentLoader where
  blocking_loads : List LoadType
  events_inhibited : Bool
deriving DecidableEq, Repr

/-- `add_blocking_load`: `self.blocking_loads.push(load)`. -/
def add_blocking_load (d : DocumentLoader) (load : LoadType) : DocumentLoader :=
  { d with blocking_loads := d.blocking_loads ++ [load] }

/-- `Iterator::position`: the index of the first element satisfying `p`. -/
def findPosition (p : LoadType → Bool) : List LoadType → Option Nat
  | [] => none
  | x :: xs => if p x then some 0 else (findPosition p xs).map (· + 1)

/-- The list part of `finish_load`: the position of the first element equal
to `load` is found and that index removed; `none` when no element matches. -/
def removeFirstLoad (xs : List LoadType) (load : LoadType) : Option (List LoadType) :=
  match findPosition (fun unfinished => decide (unfinished = load)) xs with
  | some idx => some (xs.eraseIdx idx)
  | none => none

/-- `finish_load`: find the position of the first pending load equal to
`load` and remove it; the source panics (`expect`) when there is none,
modelled as `none`. -/
def finish_load (d : DocumentLoader) (load : LoadType) : Option DocumentLoader :=
  (removeFirstLoad d.blocking_loads load).map fun bl => { d with blocking_loads := bl }

/-- `is_blocked`: `!self.blocking_loads.is_empty()`. -/
def is_blocked (d : DocumentLoader) : Bool :=
  !d.blocking_loads.isEmpty

/-! ## Bluetooth GATT characteristic (embedded from
`script/dom/bluetoothremotegattcharacteristic.rs`) -/

/-- Maximum length of an attribute value. -/
def MAXIMUM_ATTRIBUTE_LENGTH : Nat := 512

/-- The DOM binding's error type (`dom::bindings::error::Error`). -/
inductive BtError
  | Security
  | Network
  | NotSupported
  | InvalidModification
  | TypeMismatch
deriving DecidableEq, Repr

/-- `BluetoothCharacteristicProperties` flags the binding reads. -/
structure CharProperties where
  read : Bool
  write : Bool
  writeWithoutResponse : Bool
  authenticatedSignedWrites : Bool
deriving DecidableEq, Repr

/-- The characteristic's own state: UUID, cached value, instance id. -/
structure Characteristic where
  uuid : String
  value : Option (List Nat)
  instance_id : String
deriving DecidableEq, Repr

/-- Messages sent to the bluetooth thread. -/
inductive BtMsg
  | ReadValue (id : String)
  | WriteValue (id : String) (value : List Nat)
deriving DecidableEq, Repr

/-- The binding's environment: the blacklist
(`uuid_is_blacklisted(uuid, Blacklist::Reads / Blacklist::Writes)`), the
GATT connection state, the properties object and the bluetooth thread's
replies. -/
structure BtEnv where
  readBlacklisted : String → Bool
  writeBlacklisted : String → Bool
  connected : Bool
  props : CharProperties
  readReply : Except BtError (List Nat)
  writeReply : Except BtError Unit

/-- `read_value`: blacklist check, connectivity check, `Read` property
check, then the `ReadValue` round-trip; a successful reply is cached in
`self.value`.  Returns the result, the messages sent and the updated
characteristic. -/
def read_value (env : BtEnv) (c : Characteristic) :
    Except BtError (List Nat) × List BtMsg × Characteristic :=
  if env.readBlacklisted c.uuid then (.error .Security, [], c)
  else if !env.connected then (.error .Network, [], c)
  else if !env.props.read then (.error .NotSupported, [], c)
  else
    match env.readReply with
    | .ok val => (.ok val, [.ReadValue c.instance_id], { c with value := some val })
    | .error e => (.error e, [.ReadValue c.instance_id], c)

/-- `write_value`: blacklist check, `value.len() > MAXIMUM_ATTRIBUTE_LENGTH`
check, connectivity check, write-capability check, then the `WriteValue`
round-trip.  Returns the result, the messages sent and the (unchanged)
characteristic. -/
def write_value (env : BtEnv) (c : Characteristic) (value : List Nat) :
    Except BtError Unit × List BtMsg × Characteristic :=
  if env.writeBlacklisted c.uuid then (.error .Security, [], c)
  else if MAXIMUM_ATTRIBUTE_LENGTH < value.length then (.error .InvalidModification, [], c)
  else if !env.connected then (.error .Network, [], c)
  else if !(env.props.write || env.props.writeWithoutResponse ||
      env.props.authenticatedSignedWrites) then (.error .NotSupported, [], c)
  else
    match env.writeReply with
    | .ok _ => (.ok (), [.WriteValue c.instance_id value], c)
    | .error e => (.error e, [.WriteValue c.instance_id value], c)

/-! ## Concrete fixtures mirroring the test scenarios -/

/-- A terminal wire: status 200 carrying `msg`, no CORS headers. -/
def finalWire (msg : List Nat) : Wire :=
  ⟨200, "OK", [], msg, none, none, none, none, none, []⟩

/-- A redirect wire: the given 3xx status with a resolved `Location`. -/
def redirectWire (status : Nat) (target : Url) : Wire :=
  ⟨status, "", [], [], some target, none, none, none, none, []⟩

/-- The URLs of the redirect-chain server, indexed by counter path. -/
def chainUrl (k : Nat) : Url := ⟨"http", "chain", k⟩

/-- The redirect-chain server of the redirect-count tests: counters below
`cap` answer `302 Found` to the next counter, `cap` answers the message. -/
def chainServer (cap : Nat) (msg : List Nat) : Server := fun _ u =>
  if cap ≤ u.path then finalWire msg
  else redirectWire 302 (chainUrl (u.path + 1))

/-- The same-origin request starting a chain fetch at counter 0. -/
def chainRequest : Request :=
  ⟨chainUrl 0, .tuple "http" "chain", .GET, [], .NoCORS, .Follow, false, false, false⟩

/-- Fetch against a chain of `cap` redirects. -/
def fetchChain (cap : Nat) (msg : List Nat) : FetchOut :=
  fetch_with_cors_cache (chainServer cap msg) 0 [] chainRequest

/-- The consecutive naturals `k, k+1, …, k+d-1`. -/
def pathsFrom (k : Nat) : Nat → List Nat
  | 0 => []
  | d + 1 => k :: pathsFrom (k + 1) d

/-- The URLs of the single-redirect server of the method-rewrite test. -/
def hopUrl (k : Nat) : Url := ⟨"http", "hop", k⟩

/-- A server answering one redirect of the given status at counter 0 and a
terminal response at counter 1. -/
def onceServer (status : Nat) : Server := fun _ u =>
  if u.path = 0 then redirectWire status (hopUrl 1) else finalWire [1]

/-- The same-origin request for the single-redirect server, with the
original method under test. -/
def onceRequest (m : Method) : Request :=
  ⟨hopUrl 0, .tuple "http" "hop", m, [], .NoCORS, .Follow, false, false, false⟩

/-- The preflight answer of the CORS-cache test server: 200 with
`Allow-Origin: *`, `Allow-Methods: GET`, `Max-Age: 6000`. -/
def preflightWire : Wire :=
  ⟨200, "OK", [], [], none, some .Any, some [.GET], some [], some 6000, []⟩

/-- The actual-request answer of the CORS test servers: 200 with
`Allow-Origin: *` and body `b"ACK"`. -/
def ackWire : Wire :=
  ⟨200, "OK", [], [65, 67, 75], none, some .Any, none, none, none, []⟩

/-- The CORS-cache test server: preflights get `preflightWire`, everything
else gets `ackWire`. -/
def corsCacheServer : Server := fun m _ =>
  match m with
  | .OPTIONS => preflightWire
  | _ => ackWire

/-- The cross-origin `CORSMode` request with `use_cors_preflight` of the
CORS-cache test. -/
def corsCacheRequest : Request :=
  ⟨⟨"http", "h", 0⟩, .opaqueOrigin 0, .GET, [], .CORSMode, .Follow, true, false, false⟩

/-- The opaque-filter test server: a plain 200 with a non-empty body. -/
def plainServer : Server := fun _ _ =>
  ⟨200, "OK", [("content-type", "text/html")], [1, 2], none, none, none, none, none, []⟩

/-- The opaque-filter test request: cross-origin (opaque origin) without
CORS mode. -/
def opaqueTestRequest : Request :=
  ⟨⟨"http", "h", 0⟩, .opaqueOrigin 7, .GET, [], .NoCORS, .Follow, false, false, false⟩

/-- The CORS-filter test server: `Allow-Origin: *`, the six allow-listed
headers plus `Set-Cookie`/`Set-Cookie2`, which are also explicitly named in
the header-exposing response header. -/
def corsFilterServer : Server := fun _ _ =>
  ⟨200, "OK",
    [("cache-control", "nc"), ("content-language", "en"),
     ("content-type", "text/html"), ("expires", "e"), ("last-modified", "l"),
     ("pragma", "nc"), ("set-cookie", "a=b"), ("set-cookie2", "c=d")],
    [], none, some .Any, none, none, none, ["set-cookie", "set-cookie2"]⟩

/-- The CORS-filter test request: cross-origin `CORSMode` without
preflight. -/
def corsFilterRequest : Request :=
  ⟨⟨"http", "h", 0⟩, .opaqueOrigin 7, .GET, [], .CORSMode, .Follow, false, false, false⟩

/-- A non-local request under `local_urls_only`, which the orchestrator
fails with a network error. -/
def localOnlyRequest : Request :=
  ⟨⟨"http", "h", 0⟩, .opaqueOrigin 1, .GET, [], .NoCORS, .Follow, false, true, false⟩

/-- An environment whose blacklist rejects every UUID. -/
def blacklistedEnv : BtEnv :=
  ⟨fun _ => true, fun _ => true, true, ⟨true, true, true, true⟩, .ok [], .ok ()⟩

/-- An environment with nothing blacklisted, disconnected and without
write capabilities — the extreme case for the check-ordering claims. -/
def bareEnv : BtEnv :=
  ⟨fun _ => false, fun _ => false, false, ⟨false, false, false, false⟩, .ok [], .ok ()⟩

/-- A concrete characteristic. -/
def char0 : Characteristic := ⟨"00002a19", none, "id0"⟩

/-- Concrete URLs for the load-tracking counterexample. -/
def urlA : Url := ⟨"http", "a", 0⟩

/-- Second concrete URL for the load-tracking counterexample. -/
def urlB : Url := ⟨"http", "b", 0⟩

/-- A loader already blocked on an image load of `urlA` and a script load
of `urlB`. -/
def loaderAB : DocumentLoader := ⟨[.Image urlA, .Script urlB], false⟩

/-! ## Helper lemmas -/

theorem isDone_iff (b : ResponseBody) : b.is_done = true ↔ ∃ bs, b = .Done bs := by
  cases b <;> simp [ResponseBody.is_done]

theorem httpLoop_succ (server : Server) (mode : RedirectMode) (fuel : Nat)
    (m : Method) (u : Url) (acc : List Url) :
    httpLoop server mode (fuel + 1) m u acc =
      httpStep server mode (httpLoop server mode fuel) m u acc := rfl

theorem httpStep_final (server : Server) (mode : RedirectMode)
    (recur : Method → Url → List Url → LoopResult) (m : Method) (u : Url)
    (acc : List Url) (h : isRedirectWire (server m u) = false) :
    httpStep server mode recur m u acc = ⟨.ok (rawOf (server m u) u acc), [(m, u)]⟩ := by
  by_cases h3 : 300 ≤ (server m u).status ∧ (server m u).status < 400
  · have hloc : (server m u).location = none := by
      rcases hl : (server m u).location with _ | l
      · rfl
      · rw [isRedirectWire, hl] at h
        simp [h3.1, h3.2] at h
    simp [httpStep, h3, hloc]
  · simp [httpStep, h3]

theorem fetch_plain (server : Server) (now : Nat) (cache : CORSCache)
    (req : Request) (hl : req.local_urls_only = false)
    (hm : ¬(req.mode = .CORSMode ∧ req.origin ≠ urlOrigin req.url)) :
    fetch_with_cors_cache server now cache req =
      ⟨classifyAndFilter req (runMainLoop server req), cache, 0,
        (runMainLoop server req).trace⟩ := by
  simp [fetch_with_cors_cache, hl, hm]

theorem removeFirstLoad_nil (a : LoadType) : removeFirstLoad [] a = none := rfl

theorem findPosition_cons (p : LoadType → Bool) (x : LoadType) (xs : List LoadType) :
    findPosition p (x :: xs) = if p x then some 0 else (findPosition p xs).map (· + 1) := rfl

theorem removeFirstLoad_cons (x : LoadType) (xs : List LoadType) (a : LoadType) :
    removeFirstLoad (x :: xs) a =
      if x = a then some xs else (removeFirstLoad xs a).map (x :: ·) := by
  unfold removeFirstLoad
  rw [findPosition_cons]
  by_cases h : x = a
  · simp [h]
  · simp only [h, decide_False, if_false]
    cases hf : findPosition (fun u => decide (u = a)) xs <;>
      simp [hf, List.eraseIdx]

theorem removeFirstLoad_not_mem (xs : List LoadType) (a : LoadType)
    (h : a ∉ xs) : removeFirstLoad xs a = none := by
  induction xs with
  | nil => rfl
  | cons x xs ih =>
    rw [removeFirstLoad_cons]
    have hx : x ≠ a := fun he => h (he ▸ List.mem_cons_self x xs)
    rw [if_neg hx, ih (fun hm => h (List.mem_cons_of_mem x hm))]
    rfl

theorem removeFirstLoad_first (pre post : List LoadType) (a : LoadType)
    (h : a ∉ pre) : removeFirstLoad (pre ++ a :: post) a = some (pre ++ post) := by
  induction pre with
  | nil => simp [removeFirstLoad_cons]
  | cons x xs ih =>
    have hx : x ≠ a := fun he => h (he ▸ List.mem_cons_self x xs)
    rw [List.cons_append, removeFirstLoad_cons, if_neg hx,
      ih (fun hm => h (List.mem_cons_of_mem x hm))]
    rfl

theorem removeFirstLoad_push (xs : List LoadType) (a : LoadType) :
    ∃ ys, removeFirstLoad (xs ++ [a]) a = some ys ∧ ys.Perm xs ∧
      (a ∉ xs → ys = xs) := by
  induction xs with
  | nil => exact ⟨[], by simp [removeFirstLoad_cons], List.Perm.refl _, fun _ => rfl⟩
  | cons x xs ih =>
    by_cases hx : x = a
    · refine ⟨xs ++ [a], ?_, ?_, ?_⟩
      · rw [List.cons_append, removeFirstLoad_cons, if_pos hx]
      · exact (List.perm_append_singleton a xs).trans (hx ▸ (List.Perm.refl _))
      · intro hmem
        exact absurd (hx ▸ List.mem_cons_self x xs) hmem
    · obtain ⟨ys, hys, hperm, heq⟩ := ih
      refine ⟨x :: ys, ?_, hperm.cons x, ?_⟩
      · rw [List.cons_append, removeFirstLoad_cons, if_neg hx, hys]
        rfl
      · intro hmem
        rw [heq (fun hm => hmem (List.mem_cons_of_mem x hm))]

theorem httpLoop_shape (server : Server) (mode : RedirectMode) :
    ∀ (fuel : Nat) (m : Method) (u : Url) (acc : List Url),
      (httpLoop server mode fuel m u acc).out = .err ∨
      (∃ w u2 acc2, (httpLoop server mode fuel m u acc).out = .ok (rawOf w u2 acc2)) ∨
      (∃ w u2 acc2, (httpLoop server mode fuel m u acc).out = .manualRedirect (rawOf w u2 acc2)) := by
  intro fuel
  induction fuel with
  | zero => intro m u acc; exact Or.inl rfl
  | succ f ih =>
    intro m u acc
    rw [httpLoop_succ]
    simp only [httpStep]
    split
    · split
      · split
        · exact Or.inl rfl
        · exact Or.inr (Or.inr ⟨server m u, u, acc, rfl⟩)
        · split
          · exact Or.inl rfl
          · exact ih _ _ _
      · exact Or.inr (Or.inl ⟨server m u, u, acc, rfl⟩)
    · exact Or.inr (Or.inl ⟨server m u, u, acc, rfl⟩)

theorem classify_shape (req : Request) (lr : LoopResult)
    (h : lr.out = .err ∨ (∃ w u acc, lr.out = .ok (rawOf w u acc)) ∨
      (∃ w u acc, lr.out = .manualRedirect (rawOf w u acc))) :
    classifyAndFilter req lr = Response.networkError ∨
    ∃ raw, (∃ bs, raw.body = .Done bs) ∧
      (classifyAndFilter req lr = filterBasic raw ∨
       classifyAndFilter req lr = filterCORS raw ∨
       classifyAndFilter req lr = filterOpaque raw ∨
       classifyAndFilter req lr = filterOpaqueRedirect raw) := by
  rcases h with h | ⟨w, u, acc, h⟩ | ⟨w, u, acc, h⟩
  · left
    simp only [classifyAndFilter, h]
  · simp only [classifyAndFilter, h]
    by_cases h1 : req.origin = urlOrigin req.url
    · rw [if_pos h1]
      exact Or.inr ⟨rawOf w u acc, ⟨w.body, rfl⟩, Or.inl rfl⟩
    · rw [if_neg h1]
      by_cases h2 : req.mode = .CORSMode
      · rw [if_pos h2]
        by_cases hck : corsCheckOk (rawOf w u acc) req = true
        · rw [if_pos hck]
          exact Or.inr ⟨rawOf w u acc, ⟨w.body, rfl⟩, Or.inr (Or.inl rfl)⟩
        · rw [if_neg hck]
          exact Or.inl rfl
      · rw [if_neg h2]
        exact Or.inr ⟨rawOf w u acc, ⟨w.body, rfl⟩, Or.inr (Or.inr (Or.inl rfl))⟩
  · simp only [classifyAndFilter, h]
    exact Or.inr ⟨rawOf w u acc, ⟨w.body, rfl⟩, Or.inr (Or.inr (Or.inr rfl))⟩

theorem fetch_response_shape (server : Server) (now : Nat) (cache : CORSCache)
    (req : Request) :
    (fetch_with_cors_cache server now cache req).response = Response.networkError ∨
    ∃ raw, (∃ bs, raw.body = .Done bs) ∧
      ((fetch_with_cors_cache server now cache req).response = filterBasic raw ∨
       (fetch_with_cors_cache server now cache req).response = filterCORS raw ∨
       (fetch_with_cors_cache server now cache req).response = filterOpaque raw ∨
       (fetch_with_cors_cache server now cache req).response = filterOpaqueRedirect raw) := by
  have hcl := classify_shape req (runMainLoop server req)
    (httpLoop_shape server req.redirect_mode fetchFuel req.method req.url [req.url])
  unfold fetch_with_cors_cache
  split
  · exact Or.inl rfl
  · split
    · split
      · split
        · exact hcl
        · exact Or.inl rfl
      · exact hcl
    · exact hcl

theorem fetch_is_done (server : Server) (now : Nat) (cache : CORSCache)
    (req : Request) :
    ((fetch_with_cors_cache server now cache req).response).is_done := by
  rcases fetch_response_shape server now cache req with h | ⟨raw, ⟨bs, hb⟩, hfil⟩
  · rw [h]
    exact ⟨Or.inr (Or.inr (Or.inr rfl)), fun inner hi => by
      simp [Response.networkError] at hi⟩
  · rcases hfil with h | h | h | h <;> rw [h]
    · exact ⟨Or.inl ⟨bs, hb⟩, fun inner hi => by
        simp [filterBasic] at hi
        exact hi ▸ ⟨bs, hb⟩⟩
    · exact ⟨Or.inl ⟨bs, hb⟩, fun inner hi => by
        simp [filterCORS] at hi
        exact hi ▸ ⟨bs, hb⟩⟩
    · exact ⟨Or.inr (Or.inl rfl), fun inner hi => by
        simp [filterOpaque] at hi⟩
    · exact ⟨Or.inr (Or.inr (Or.inl rfl)), fun inner hi => by
        simp [filterOpaqueRedirect] at hi
        exact hi ▸ ⟨bs, hb⟩⟩

theorem httpStep_follow (server : Server)
    (recur : Method → Url → List Url → LoopResult) (m : Method) (u : Url)
    (acc : List Url) (loc : Url)
    (h3 : 300 ≤ (server m u).status) (h4 : (server m u).status < 400)
    (hl : (server m u).location = some loc) (hlen : acc.length < 21) :
    httpStep server .Follow recur m u acc =
      ⟨(recur (redirectMethod (server m u).status m) loc (acc ++ [loc])).out,
        (m, u) :: (recur (redirectMethod (server m u).status m) loc (acc ++ [loc])).trace⟩ := by
  simp only [httpStep]
  rw [if_pos (⟨h3, h4⟩ : 300 ≤ (server m u).status ∧ (server m u).status < 400)]
  simp only [hl]
  rw [if_neg (by omega : ¬21 ≤ acc.length)]

theorem httpStep_ceiling (server : Server)
    (recur : Method → Url → List Url → LoopResult) (m : Method) (u : Url)
    (acc : List Url) (loc : Url)
    (h3 : 300 ≤ (server m u).status) (h4 : (server m u).status < 400)
    (hl : (server m u).location = some loc) (hlen : 21 ≤ acc.length) :
    httpStep server .Follow recur m u acc = ⟨.err, [(m, u)]⟩ := by
  simp only [httpStep]
  rw [if_pos (⟨h3, h4⟩ : 300 ≤ (server m u).status ∧ (server m u).status < 400)]
  simp only [hl]
  rw [if_pos hlen]

theorem pathsFrom_length (d k : Nat) : (pathsFrom k d).length = d := by
  induction d generalizing k with
  | zero => rfl
  | succ d ih => simp [pathsFrom, ih]

theorem chainLoop_ok (msg : List Nat) :
    ∀ (d k : Nat), k + d ≤ 20 → ∀ (acc : List Url), acc.length = k + 1 →
      ∀ (fuel : Nat), d + 1 ≤ fuel →
      httpLoop (chainServer (k + d) msg) .Follow fuel .GET (chainUrl k) acc =
        ⟨.ok { status := some (200, "OK"), headers := [], body := .Done msg,
               url := some (chainUrl (k + d)),
               url_list := acc ++ (pathsFrom (k + 1) d).map chainUrl,
               cache_state := .None, allowOrigin := none, exposeHeaders := [] },
          (pathsFrom k (d + 1)).map fun i => (.GET, chainUrl i)⟩ := by
  intro d
  induction d with
  | zero =>
    intro k hk acc hacc fuel hfuel
    obtain ⟨f, rfl⟩ : ∃ f, fuel = f + 1 := ⟨fuel - 1, by omega⟩
    rw [httpLoop_succ,
      httpStep_final _ _ _ _ _ _ (by simp [isRedirectWire, chainServer, chainUrl, finalWire])]
    simp [rawOf, chainServer, chainUrl, finalWire, pathsFrom]
  | succ d ih =>
    intro k hk acc hacc fuel hfuel
    obtain ⟨f, rfl⟩ : ∃ f, fuel = f + 1 := ⟨fuel - 1, by omega⟩
    rw [show k + (d + 1) = (k + 1) + d from by omega]
    have hw : chainServer ((k + 1) + d) msg .GET (chainUrl k) =
        redirectWire 302 (chainUrl (k + 1)) := by
      simp only [chainServer, chainUrl]
      rw [if_neg (by simp; omega)]
    rw [httpLoop_succ,
      httpStep_follow _ _ _ _ _ (chainUrl (k + 1))
        (by rw [hw]; simp [redirectWire]) (by rw [hw]; simp [redirectWire])
        (by rw [hw]; simp [redirectWire]) (by omega)]
    rw [hw]
    have hrm : redirectMethod (redirectWire 302 (chainUrl (k + 1))).status .GET = .GET := by
      simp [redirectWire, redirectMethod]
    rw [hrm,
      ih (k + 1) (by omega) (acc ++ [chainUrl (k + 1)]) (by simp [hacc]) f (by omega)]
    simp [pathsFrom, List.append_assoc]

theorem chainLoop_err (msg : List Nat) :
    ∀ (j k : Nat), k + j = 20 → ∀ (acc : List Url), acc.length = k + 1 →
      ∀ (fuel : Nat), j + 1 ≤ fuel →
      httpLoop (chainServer 21 msg) .Follow fuel .GET (chainUrl k) acc =
        ⟨.err, (pathsFrom k (j + 1)).map fun i => (.GET, chainUrl i)⟩ := by
  intro j
  induction j with
  | zero =>
    intro k hk acc hacc fuel hfuel
    obtain ⟨f, rfl⟩ : ∃ f, fuel = f + 1 := ⟨fuel - 1, by omega⟩
    obtain rfl : k = 20 := by omega
    have hw : chainServer 21 msg .GET (chainUrl 20) =
        redirectWire 302 (chainUrl 21) := by
      simp [chainServer, chainUrl]
    rw [httpLoop_succ,
      httpStep_ceiling _ _ _ _ _ (chainUrl 21)
        (by rw [hw]; simp [redirectWire]) (by rw [hw]; simp [redirectWire])
        (by rw [hw]; simp [redirectWire]) (by omega)]
    simp [pathsFrom]
  | succ j ih =>
    intro k hk acc hacc fuel hfuel
    obtain ⟨f, rfl⟩ : ∃ f, fuel = f + 1 := ⟨fuel - 1, by omega⟩
    have hw : chainServer 21 msg .GET (chainUrl k) =
        redirectWire 302 (chainUrl (k + 1)) := by
      simp only [chainServer, chainUrl]
      rw [if_neg (by simp; omega)]
    rw [httpLoop_succ,
      httpStep_follow _ _ _ _ _ (chainUrl (k + 1))
        (by rw [hw]; simp [redirectWire]) (by rw [hw]; simp [redirectWire])
        (by rw [hw]; simp [redirectWire]) (by omega)]
    rw [hw]
    have hrm : redirectMethod (redirectWire 302 (chainUrl (k + 1))).status .GET = .GET := by
      simp [redirectWire, redirectMethod]
    rw [hrm, ih (k + 1) (by omega) (acc ++ [chainUrl (k + 1)]) (by simp [hacc]) f (by omega)]
    simp [pathsFrom]

theorem fetch_error_uniform (server : Server) (now : Nat) (cache : CORSCache)
    (req : Request)
    (h : ((fetch_with_cors_cache server now cache req).response).is_network_error = true) :
    (fetch_with_cors_cache server now cache req).response = Response.networkError := by
  rcases fetch_response_shape server now cache req with hs | ⟨raw, _, hfil⟩
  · exact hs
  · exfalso
    rcases hfil with he | he | he | he <;> rw [Response.is_network_error, he] at h <;>
      simp [filterBasic, filterCORS, filterOpaque, filterOpaqueRedirect] at h

/-! ## Claim theorems -/

/-- C6: for every `Response`, the test-suite's completion check
`response_is_done` holds exactly when the response's own body is `Done` (or
its response type — `Opaque`, `OpaqueRedirect` or `Error` — forbids a body,
in which case the own body does not block doneness) and, when an
`internal_response` is present, that internal response's body is also
`Done`. -/
theorem response_done_characterization (r : Response) :
    response_is_done r = true ↔ r.is_done := by
  obtain ⟨t, st, hs, b, u, ul, cs, ir⟩ := r
  unfold response_is_done Response.is_done
  cases t <;> cases b <;> rcases ir with _ | ⟨rst, rhs2, rb, ru, rul, rcs, rao, reh⟩ <;>
    (try cases rb) <;>
    simp [ResponseBody.is_done, isDone_iff, bodyDone, typeForbidsBody]

/-- C8: `SecurityError` is produced only by the binding layer — a
read-blacklisted UUID makes `read_value` return `Security` before any other
check and before any message is sent (the characteristic unchanged), and
likewise `write_value` for a write-blacklisted UUID, whatever the
connection state, properties or thread replies; every orchestrator-level
failure is instead the uniform network-error response. -/
theorem security_error_only_in_bindings :
    (∀ (env : BtEnv) (c : Characteristic), env.readBlacklisted c.uuid = true →
      read_value env c = (.error .Security, [], c)) ∧
    (∀ (env : BtEnv) (c : Characteristic) (v : List Nat),
      env.writeBlacklisted c.uuid = true →
      write_value env c v = (.error .Security, [], c)) ∧
    (∀ (server : Server) (now : Nat) (cache : CORSCache) (req : Request),
      (fetch_with_cors_cache server now cache req).response.is_network_error = true →
      (fetch_with_cors_cache server now cache req).response = Response.networkError) := by
  refine ⟨?_, ?_, fetch_error_uniform⟩
  · intro env c h
    unfold read_value
    rw [if_pos h]
  · intro env c v h
    unfold write_value
    rw [if_pos h]

/-- C8 witness: a fully-blacklisted environment yields `Security` from both
accessors without messages, and a concrete orchestrator failure
(`local_urls_only` against an `http` URL) is the uniform network error. -/
theorem security_error_only_in_bindings_witness :
    read_value blacklistedEnv char0 = (.error .Security, [], char0) ∧
    write_value blacklistedEnv char0 [1] = (.error .Security, [], char0) ∧
    (fetch_with_cors_cache plainServer 0 [] localOnlyRequest).response = Response.networkError :=
  ⟨security_error_only_in_bindings.1 blacklistedEnv char0 rfl,
   security_error_only_in_bindings.2.1 blacklistedEnv char0 [1] rfl,
   security_error_only_in_bindings.2.2 plainServer 0 [] localOnlyRequest (by decide)⟩

/-- C9 counterexample: the claim's "add then finish restores
`blocking_loads`" fails as stated — with `blocking_loads =
[Image urlA, Script urlB]`, adding `Image urlA` and finishing it removes
the first (pre-existing) occurrence, leaving `[Script urlB, Image urlA]`,
not the original list. -/
theorem document_loader_pair_not_identity :
    finish_load (add_blocking_load loaderAB (.Image urlA)) (.Image urlA) ≠
      some loaderAB := by decide

/-- C9 (amended): `add_blocking_load` followed by `finish_load` of the same
load succeeds and leaves `blocking_loads` a permutation of its prior value
(equal when no already-pending load equals it, since `finish_load` removes
the first occurrence); `is_blocked` holds exactly when some load is
pending; `finish_load` removes exactly the first occurrence equal to the
load and panics (modelled `none`) when none matches. -/
theorem document_loader_algebra :
    (∀ (d : DocumentLoader) (load : LoadType),
      ∃ d', finish_load (add_blocking_load d load) load = some d' ∧
        d'.blocking_loads.Perm d.blocking_loads ∧
        d'.events_inhibited = d.events_inhibited ∧
        (load ∉ d.blocking_loads → d' = d)) ∧
    (∀ d : DocumentLoader, is_blocked d = true ↔ d.blocking_loads ≠ []) ∧
    (∀ (d : DocumentLoader) (load : LoadType) (pre post : List LoadType),
      d.blocking_loads = pre ++ load :: post → load ∉ pre →
      finish_load d load = some { d with blocking_loads := pre ++ post }) ∧
    (∀ (d : DocumentLoader) (load : LoadType),
      load ∉ d.blocking_loads → finish_load d load = none) := by
  refine ⟨?_, ?_, ?_, ?_⟩
  · intro d load
    obtain ⟨ys, hys, hperm, heq⟩ := removeFirstLoad_push d.blocking_loads load
    refine ⟨{ d with blocking_loads := ys }, ?_, hperm, rfl, ?_⟩
    · simp [finish_load, add_blocking_load, hys]
    · intro hmem
      have hy := heq hmem
      cases d
      simp_all
  · intro d
    rcases hd : d.blocking_loads with _ | ⟨x, xs⟩ <;> simp [is_blocked, hd]
  · intro d load pre post hbl hpre
    simp [finish_load, hbl, removeFirstLoad_first pre post load hpre]
  · intro d load hmem
    simp [finish_load, removeFirstLoad_not_mem _ _ hmem]

/-- C9 witness: the amended algebra evaluated on a concrete loader — a
fresh `Media` load round-trips, `is_blocked` agrees with non-emptiness,
finishing `Image urlA` removes exactly the first occurrence, and finishing
an unknown load is the modelled panic. -/
theorem document_loader_algebra_witness :
    (∃ d', finish_load (add_blocking_load loaderAB (.Media urlA)) (.Media urlA) = some d' ∧
      d'.blocking_loads.Perm loaderAB.blocking_loads ∧
      d'.events_inhibited = loaderAB.events_inhibited ∧
      ((LoadType.Media urlA) ∉ loaderAB.blocking_loads → d' = loaderAB)) ∧
    (is_blocked loaderAB = true ↔ loaderAB.blocking_loads ≠ []) ∧
    finish_load loaderAB (.Image urlA) =
      some { loaderAB with blocking_loads := [] ++ [.Script urlB] } ∧
    finish_load loaderAB (.Media urlB) = none :=
  ⟨document_loader_algebra.1 loaderAB (.Media urlA),
   document_loader_algebra.2.1 loaderAB,
   document_loader_algebra.2.2.1 loaderAB (.Image urlA) [] [.Script urlB] rfl (by decide),
   document_loader_algebra.2.2.2 loaderAB (.Media urlB) (by decide)⟩

/-- C10: for every byte vector longer than `MAXIMUM_ATTRIBUTE_LENGTH = 512`
whose characteristic UUID is not write-blacklisted, `write_value` returns
`InvalidModification` without sending any message and without touching the
characteristic — for every connection state and property set, showing the
length check precedes the connectivity and property checks. -/
theorem write_value_length_guard (env : BtEnv) (c : Characteristic) (v : List Nat)
    (hbl : env.writeBlacklisted c.uuid = false)
    (hlen : MAXIMUM_ATTRIBUTE_LENGTH < v.length) :
    write_value env c v = (.error .InvalidModification, [], c) := by
  unfold write_value
  rw [if_neg (by simp [hbl]), if_pos hlen]

/-- C10 witness: a 513-byte write against a disconnected, capability-free,
non-blacklisted characteristic is rejected as `InvalidModification` with no
message sent. -/
theorem write_value_length_guard_witness :
    write_value bareEnv char0 (List.replicate 513 0) =
      (.error .InvalidModification, [], char0) :=
  write_value_length_guard bareEnv char0 (List.replicate 513 0) rfl
    (by rw [List.length_replicate]; decide)

/-- C1: a fetch whose request is not in `CORSMode` and whose origin differs
from the target URL's origin (scoped to the test scenario: a local-scheme
restriction not in force and a non-redirect answer) produces the fully
suppressed `Opaque` response — `url = none`, `status = none`, empty
headers, empty `url_list`, body `Empty` — whatever status, headers and body
bytes the server actually sent. -/
theorem opaque_filter_suppresses_cross_origin (server : Server) (now : Nat)
    (cache : CORSCache) (req : Request)
    (hmode : req.mode ≠ .CORSMode)
    (horigin : req.origin ≠ urlOrigin req.url)
    (hlocal : req.local_urls_only = false)
    (hwire : isRedirectWire (server req.method req.url) = false) :
    (fetch_with_cors_cache server now cache req).response =
      ⟨.Opaque, none, [], .Empty, none, [], .None, none⟩ := by
  rw [fetch_plain server now cache req hlocal (fun hc => hmode hc.1)]
  have hloop : runMainLoop server req =
      ⟨.ok (rawOf (server req.method req.url) req.url [req.url]),
        [(req.method, req.url)]⟩ := by
    unfold runMainLoop fetchFuel
    rw [show (25 : Nat) = 24 + 1 from rfl, httpLoop_succ,
      httpStep_final _ _ _ _ _ _ hwire]
  show classifyAndFilter req (runMainLoop server req) = _
  rw [hloop]
  simp only [classifyAndFilter]
  rw [if_neg horigin, if_neg hmode]
  rfl

/-- C1 witness: the cross-origin no-CORS request against a 200 answer with
a content-type header and a non-empty body still comes back fully
suppressed. -/
theorem opaque_filter_suppresses_cross_origin_witness :
    opaqueTestRequest.mode ≠ RequestMode.CORSMode ∧
    (fetch_with_cors_cache plainServer 0 [] opaqueTestRequest).response =
      ⟨.Opaque, none, [], .Empty, none, [], .None, none⟩ :=
  ⟨by decide,
   opaque_filter_suppresses_cross_origin plainServer 0 [] opaqueTestRequest
     (by decide) (by decide) rfl (by decide)⟩

/-- Headers on the CORS allow-list are never the forbidden response
headers. -/
theorem allowlist_not_forbidden (n : String) (h : n ∈ corsAllowList) :
    forbiddenResponseHeader n = false := by
  simp only [corsAllowList, List.mem_cons, List.not_mem_nil, or_false] at h
  rcases h with h | h | h | h | h | h <;>
    · simp only [forbiddenResponseHeader, h]
      decide

/-- C2: a response filtered as `CORS` (scoped to the test scenario: a
cross-origin `CORSMode` request without preflight, a non-redirect answer
whose `Access-Control-Allow-Origin` admits the origin) retains every wire
header whose name is on the fixed allow-list — `Cache-Control`,
`Content-Language`, `Content-Type`, `Expires`, `Last-Modified`, `Pragma` —
and never retains `Set-Cookie`/`Set-Cookie2`, whatever header names the
server's CORS header-exposing response header lists. -/
theorem cors_filter_header_policy (server : Server) (now : Nat)
    (cache : CORSCache) (req : Request)
    (hmode : req.mode = .CORSMode)
    (horigin : req.origin ≠ urlOrigin req.url)
    (hlocal : req.local_urls_only = false)
    (hnp : req.use_cors_preflight = false)
    (hsm : isSimpleMethod req.method = true)
    (hwire : isRedirectWire (server req.method req.url) = false)
    (hacao : allowOriginMatches (server req.method req.url).allowOrigin req.origin = true) :
    (fetch_with_cors_cache server now cache req).response.response_type = .CORS ∧
    (∀ n v, (n, v) ∈ (server req.method req.url).headers →
      n ∈ corsAllowList →
      (n, v) ∈ (fetch_with_cors_cache server now cache req).response.headers) ∧
    (∀ n v, forbiddenResponseHeader n = true →
      (n, v) ∉ (fetch_with_cors_cache server now cache req).response.headers) := by
  have hfetch : fetch_with_cors_cache server now cache req =
      ⟨classifyAndFilter req (runMainLoop server req), cache, 0,
        (runMainLoop server req).trace⟩ := by
    unfold fetch_with_cors_cache
    rw [if_neg (by simp [hlocal]), if_pos ⟨hmode, horigin⟩,
      if_neg (by simp [hnp, hsm])]
  have hloop : runMainLoop server req =
      ⟨.ok (rawOf (server req.method req.url) req.url [req.url]),
        [(req.method, req.url)]⟩ := by
    unfold runMainLoop fetchFuel
    rw [show (25 : Nat) = 24 + 1 from rfl, httpLoop_succ,
      httpStep_final _ _ _ _ _ _ hwire]
  have hresp : (fetch_with_cors_cache server now cache req).response =
      filterCORS (rawOf (server req.method req.url) req.url [req.url]) := by
    rw [hfetch]
    show classifyAndFilter req (runMainLoop server req) = _
    rw [hloop]
    simp only [classifyAndFilter]
    rw [if_neg horigin, if_pos hmode,
      if_pos (by simp [corsCheckOk, rawOf, hacao])]
  rw [hresp]
  refine ⟨rfl, ?_, ?_⟩
  · intro n v hmem hallow
    show (n, v) ∈ (rawOf (server req.method req.url) req.url [req.url]).headers.filter _
    refine List.mem_filter.mpr ⟨hmem, ?_⟩
    have hc : corsAllowList.contains n = true := List.elem_iff.mpr hallow
    simp only [corsHeaderKept, hc, allowlist_not_forbidden n hallow, Bool.not_false,
      Bool.and_true, Bool.true_or]
  · intro n v hforb hmem
    have hp := (List.mem_filter.mp hmem).2
    simp [corsHeaderKept, hforb] at hp

/-- C2 witness: the CORS-filter test server's allow-listed headers all
survive filtering and its `Set-Cookie`/`Set-Cookie2` headers do not, even
though it exposes them by name. -/
theorem cors_filter_header_policy_witness :
    (fetch_with_cors_cache corsFilterServer 0 [] corsFilterRequest).response.response_type =
      ResponseType.CORS ∧
    ("cache-control", "nc") ∈
      (fetch_with_cors_cache corsFilterServer 0 [] corsFilterRequest).response.headers ∧
    ∀ v, ("set-cookie", v) ∉
      (fetch_with_cors_cache corsFilterServer 0 [] corsFilterRequest).response.headers :=
  ⟨(cors_filter_header_policy corsFilterServer 0 [] corsFilterRequest
      rfl (by decide) rfl rfl rfl (by decide) (by decide)).1,
   (cors_filter_header_policy corsFilterServer 0 [] corsFilterRequest
      rfl (by decide) rfl rfl rfl (by decide) (by decide)).2.1
     "cache-control" "nc" (by decide) (by decide),
   fun v =>
     (cors_filter_header_policy corsFilterServer 0 [] corsFilterRequest
        rfl (by decide) rfl rfl rfl (by decide) (by decide)).2.2
       "set-cookie" v (by decide)⟩

/-- C7: fetching a request through the delivery-target protocol (the
response observed at `process_response_eof`) and fetching it synchronously
yield the very same response — hence identical `response_type` and body
bytes — and that response satisfies the doneness invariant; the synchronous
wrapper is the same algorithm, merely blocked on. -/
theorem async_sync_agree (server : Server) (now : Nat) (cache : CORSCache)
    (req : Request) :
    fetch_async server now cache req = some (fetch_sync server now cache req) ∧
    (fetch_sync server now cache req).is_done := by
  refine ⟨?_, fetch_is_done server now cache req⟩
  unfold fetch_async fetch_sync deliverEvents lastEofResponse
  cases h : (fetch_with_cors_cache server now cache req).response.body <;>
    simp [h, List.foldl]

/-- C4: on following a redirect the method is rewritten — `303` always
becomes `GET`; `301`/`302` become `GET` exactly when the original method
was `POST`; every other status preserves the method — and the next hop of
the redirect loop is issued with exactly `redirectMethod status m`. -/
theorem redirect_method_rewrite :
    (∀ m, redirectMethod 303 m = .GET) ∧
    (∀ (s : Nat) m, (s = 301 ∨ s = 302) →
      redirectMethod s m = if m = .POST then .GET else m) ∧
    (∀ (s : Nat) m, s ≠ 301 → s ≠ 302 → s ≠ 303 → redirectMethod s m = m) ∧
    (∀ (s : Nat) (m : Method), 300 ≤ s → s < 400 →
      (fetch_with_cors_cache (onceServer s) 0 [] (onceRequest m)).trace =
        [(m, hopUrl 0), (redirectMethod s m, hopUrl 1)]) := by
  refine ⟨?_, ?_, ?_, ?_⟩
  · intro m
    simp [redirectMethod]
  · intro s m hs
    rcases hs with rfl | rfl <;> by_cases hm : m = .POST <;>
      simp [redirectMethod, hm]
  · intro s m h1 h2 h3
    unfold redirectMethod
    rw [if_neg h3, if_neg (fun hc => hc.1.elim h1 h2)]
  · intro s m h3 h4
    rw [fetch_plain _ _ _ _ rfl (by simp [onceRequest])]
    show (runMainLoop (onceServer s) (onceRequest m)).trace = _
    unfold runMainLoop fetchFuel
    simp only [onceRequest]
    have hw1 : onceServer s m (hopUrl 0) = redirectWire s (hopUrl 1) := by
      simp [onceServer, hopUrl]
    rw [show (25 : Nat) = 24 + 1 from rfl, httpLoop_succ,
      httpStep_follow _ _ _ _ _ (hopUrl 1)
        (by rw [hw1]; exact h3) (by rw [hw1]; exact h4)
        (by rw [hw1]; rfl) (by simp)]
    have hst : (onceServer s m (hopUrl 0)).status = s := by rw [hw1]; rfl
    rw [hst]
    have hw2 : onceServer s (redirectMethod s m) (hopUrl 1) = finalWire [1] := by
      simp [onceServer, hopUrl]
    rw [show (24 : Nat) = 23 + 1 from rfl, httpLoop_succ,
      httpStep_final _ _ _ _ _ _ (by rw [hw2]; rfl)]

/-- C4 witness: the rewrite table and the issued-hop trace, evaluated at
`(303, FOO)`, `(301, POST)`, `(307, FOO)` and a concrete `301` fetch with a
`POST` request. -/
theorem redirect_method_rewrite_witness :
    redirectMethod 303 (.EXT "FOO") = .GET ∧
    redirectMethod 301 .POST = (if (Method.POST) = .POST then .GET else .POST) ∧
    redirectMethod 307 (.EXT "FOO") = .EXT "FOO" ∧
    (fetch_with_cors_cache (onceServer 301) 0 [] (onceRequest .POST)).trace =
      [(.POST, hopUrl 0), (redirectMethod 301 .POST, hopUrl 1)] :=
  ⟨redirect_method_rewrite.1 (.EXT "FOO"),
   redirect_method_rewrite.2.1 301 .POST (Or.inl rfl),
   redirect_method_rewrite.2.2.1 307 (.EXT "FOO") (by decide) (by decide) (by decide),
   redirect_method_rewrite.2.2.2 301 .POST (by decide) (by decide)⟩

/-- C5: a cross-origin `CORSMode` request with `use_cors_preflight` against
an uncovered `(origin, url, credentials)` key issues exactly one `OPTIONS`
preflight; afterwards `match_method(request, GET)` holds on the updated
cache, and a second fetch of the same request through that cache issues
zero `OPTIONS` requests and completes as a `CORS`-filtered response from
the cached authorization. -/
theorem preflight_cache_reuse (server : Server) (now : Nat) (cache : CORSCache)
    (req : Request) (ms : List Method) (age : Nat)
    (hmode : req.mode = .CORSMode)
    (horigin : req.origin ≠ urlOrigin req.url)
    (hlocal : req.local_urls_only = false)
    (hp : req.use_cors_preflight = true)
    (hm : req.method = .GET)
    (hfresh : match_method now cache req .GET = false)
    (h1 : (server .OPTIONS req.url).status = 200)
    (h2 : (server .OPTIONS req.url).allowOrigin = some .Any)
    (h3 : (server .OPTIONS req.url).allowMethods = some ms)
    (h4 : ms.contains .GET = true)
    (h5 : (server .OPTIONS req.url).maxAge = some age)
    (hwire : isRedirectWire (server .GET req.url) = false)
    (hacao : allowOriginMatches (server .GET req.url).allowOrigin req.origin = true) :
    (fetch_with_cors_cache server now cache req).optionsCount = 1 ∧
    match_method now (fetch_with_cors_cache server now cache req).cache req .GET = true ∧
    (fetch_with_cors_cache server now
      (fetch_with_cors_cache server now cache req).cache req).optionsCount = 0 ∧
    (fetch_with_cors_cache server now
      (fetch_with_cors_cache server now cache req).cache req).response.response_type =
      .CORS := by
  have h4m : Method.GET ∈ ms := List.elem_iff.mp h4
  have hpf : preflightOk (server .OPTIONS req.url) req = true := by
    simp [preflightOk, h1, h2, h3, hm, h4m, allowOriginMatches]
  have hfe1 : fetch_with_cors_cache server now cache req =
      ⟨classifyAndFilter req (runMainLoop server req),
       preflightCacheUpdate now cache req (server .OPTIONS req.url), 1,
       (runMainLoop server req).trace⟩ := by
    unfold fetch_with_cors_cache
    rw [if_neg (by simp [hlocal]), if_pos ⟨hmode, horigin⟩,
      if_pos (by simp [hp, hm, hfresh]), if_pos hpf]
  have hcache : (fetch_with_cors_cache server now cache req).cache =
      insertEntry now cache (keyOf req) ms
        ((server .OPTIONS req.url).allowHeaders.getD []) age := by
    rw [hfe1]
    simp [preflightCacheUpdate, h5, h3]
  have hmatch : match_method now (fetch_with_cors_cache server now cache req).cache
      req .GET = true := by
    rw [hcache]
    simp [match_method, matchMethodKey, insertEntry, entryLive, h4m, Nat.le_add_right]
  have hloop : runMainLoop server req =
      ⟨.ok (rawOf (server .GET req.url) req.url [req.url]), [(.GET, req.url)]⟩ := by
    unfold runMainLoop fetchFuel
    rw [hm, show (25 : Nat) = 24 + 1 from rfl, httpLoop_succ,
      httpStep_final _ _ _ _ _ _ hwire]
  have hfe2 : ∀ cache2 : CORSCache, match_method now cache2 req .GET = true →
      fetch_with_cors_cache server now cache2 req =
      ⟨classifyAndFilter req (runMainLoop server req), cache2, 0,
       (runMainLoop server req).trace⟩ := by
    intro cache2 hmm2
    unfold fetch_with_cors_cache
    rw [if_neg (by simp [hlocal]), if_pos ⟨hmode, horigin⟩,
      if_neg (by rw [hm]; simp [hmm2])]
  have hclass : classifyAndFilter req (runMainLoop server req) =
      filterCORS (rawOf (server .GET req.url) req.url [req.url]) := by
    rw [hloop]
    simp only [classifyAndFilter]
    rw [if_neg horigin, if_pos hmode, if_pos (by simp [corsCheckOk, rawOf, hacao])]
  refine ⟨by rw [hfe1], hmatch, by rw [hfe2 _ hmatch], ?_⟩
  rw [hfe2 _ hmatch]
  show (classifyAndFilter req (runMainLoop server req)).response_type = _
  rw [hclass]
  rfl

/-- C5 witness: the CORS-cache test scenario — first fetch issues one
preflight and populates the cache, `match_method GET` then holds, and the
second fetch issues no preflight and is CORS-filtered. -/
theorem preflight_cache_reuse_witness :
    (fetch_with_cors_cache corsCacheServer 0 [] corsCacheRequest).optionsCount = 1 ∧
    match_method 0 (fetch_with_cors_cache corsCacheServer 0 [] corsCacheRequest).cache
      corsCacheRequest .GET = true ∧
    (fetch_with_cors_cache corsCacheServer 0
      (fetch_with_cors_cache corsCacheServer 0 [] corsCacheRequest).cache
      corsCacheRequest).optionsCount = 0 ∧
    (fetch_with_cors_cache corsCacheServer 0
      (fetch_with_cors_cache corsCacheServer 0 [] corsCacheRequest).cache
      corsCacheRequest).response.response_type = .CORS :=
  preflight_cache_reuse corsCacheServer 0 [] corsCacheRequest [.GET] 6000
    rfl (by decide) rfl rfl rfl (by decide) rfl rfl rfl (by decide) rfl
    (by decide) (by decide)

/-- C3: under `Follow`, a chain of `n ≤ 20` redirects completes with the
final resource's non-error `Basic` response whose body carries the final
bytes and whose `url_list` has length `n + 1`; the 21-redirect chain yields
a network error with body `Empty`, produced after the initial request plus
twenty follows (trace length 21): the request for the 21st redirect's
target is never issued. -/
theorem redirect_chain_ceiling (n : Nat) (msg : List Nat) (hn : n ≤ 20) :
    ((fetchChain n msg).response.is_network_error = false ∧
     (fetchChain n msg).response.response_type = .Basic ∧
     (fetchChain n msg).response.body = .Done msg ∧
     (fetchChain n msg).response.url_list.length = n + 1) ∧
    ((fetchChain 21 msg).response.is_network_error = true ∧
     (fetchChain 21 msg).response.body = .Empty ∧
     (fetchChain 21 msg).trace.length = 21) := by
  have hplain : ∀ (cap : Nat),
      fetchChain cap msg =
        ⟨classifyAndFilter chainRequest
            (runMainLoop (chainServer cap msg) chainRequest),
          [], 0, (runMainLoop (chainServer cap msg) chainRequest).trace⟩ := fun cap =>
    fetch_plain _ _ _ _ rfl (by simp [chainRequest])
  have hml : ∀ cap, runMainLoop (chainServer cap msg) chainRequest =
      httpLoop (chainServer cap msg) .Follow 25 .GET (chainUrl 0) [chainUrl 0] :=
    fun _ => rfl
  have hloopn := chainLoop_ok msg n 0 (by omega) [chainUrl 0] (by simp) 25 (by omega)
  simp only [Nat.zero_add] at hloopn
  have hrespn : (fetchChain n msg).response =
      filterBasic { status := some (200, "OK"), headers := [],
                    body := ResponseBody.Done msg,
                    url := some (chainUrl n),
                    url_list := [chainUrl 0] ++ (pathsFrom 1 n).map chainUrl,
                    cache_state := CacheState.None, allowOrigin := none,
                    exposeHeaders := [] } := by
    rw [hplain n]
    show classifyAndFilter chainRequest (runMainLoop (chainServer n msg) chainRequest) = _
    rw [hml n, hloopn]
    simp only [classifyAndFilter]
    rw [if_pos (show chainRequest.origin = urlOrigin chainRequest.url from rfl)]
  have hloop21 := chainLoop_err msg 20 0 (by omega) [chainUrl 0] (by simp) 25 (by omega)
  have hresp21 : (fetchChain 21 msg).response = Response.networkError := by
    rw [hplain 21]
    show classifyAndFilter chainRequest (runMainLoop (chainServer 21 msg) chainRequest) = _
    rw [hml 21, hloop21]
    simp only [classifyAndFilter]
  refine ⟨⟨?_, ?_, ?_, ?_⟩, ?_, ?_, ?_⟩
  · rw [hrespn]; rfl
  · rw [hrespn]; rfl
  · rw [hrespn]; rfl
  · rw [hrespn]
    show ([chainUrl 0] ++ (pathsFrom 1 n).map chainUrl).length = n + 1
    simp [pathsFrom_length, Nat.add_comm]
  · rw [hresp21]; rfl
  · rw [hresp21]; rfl
  · rw [hplain 21]
    show (runMainLoop (chainServer 21 msg) chainRequest).trace.length = 21
    rw [hml 21, hloop21]
    simp [pathsFrom_length]

/-- C3 witness: the two-redirect chain completes as `Basic` with the final
bytes and a three-element `url_list`, while the 21-redirect chain is a
network error with an `Empty` body after exactly 21 issued requests. -/
theorem redirect_chain_ceiling_witness :
    ((fetchChain 2 [7, 8]).response.is_network_error = false ∧
     (fetchChain 2 [7, 8]).response.response_type = .Basic ∧
     (fetchChain 2 [7, 8]).response.body = .Done [7, 8] ∧
     (fetchChain 2 [7, 8]).response.url_list.length = 2 + 1) ∧
    ((fetchChain 21 [7, 8]).response.is_network_error = true ∧
     (fetchChain 21 [7, 8]).response.body = .Empty ∧
     (fetchChain 21 [7, 8]).trace.length = 21) :=
  redirect_chain_ceiling 2 [7, 8] (by decide)

end Servo
